import Mathlib

/-
Verification development for the obsidian-claude-code repository.

The repository bundles two Obsidian-plugin prototypes around an embedded
terminal panel.  The fallback shell of the first prototype (src/main.ts,
class TerminalView) contains a line editor, a command dispatcher, a
process-session manager and an output filter; the second prototype
(src/unnamed/part_000) spawns a fixed claude executable.  JavaScript
strings are embedded as List Char; asynchronous OS interactions (the
availability probe, process spawning) are embedded as oracle parameters
and explicit action lists.
-/

/-! ## Output filter (src/main.ts, filterClaudeOutput, lines 629-664) -/

/-- The clear-screen escape triple detected by the filter: the regex
literal ESC[2J ESC[3J ESC[H of src/main.ts line 636. -/
def clearTriple : List Char :=
  ['\x1b', '[', '2', 'J', '\x1b', '[', '3', 'J', '\x1b', '[', 'H']

/-- The normalized replacement written while the counter is small:
the literal ESC[H ESC[2J of src/main.ts line 649. -/
def normalizedClear : List Char := ['\x1b', '[', 'H', '\x1b', '[', '2', 'J']

/-- Number of non-overlapping left-to-right occurrences of the
clear-screen triple, as counted by output.match(clearScreenPattern)
with the global flag (src/main.ts line 637). -/
def countClearTriples : List Char → Nat
  | '\x1b' :: '[' :: '2' :: 'J' :: '\x1b' :: '[' :: '3' :: 'J' :: '\x1b' :: '[' :: 'H' :: rest =>
      countClearTriples rest + 1
  | _ :: rest => countClearTriples rest
  | [] => 0

/-- Replace every non-overlapping occurrence of the clear-screen triple
by repl, scanning left to right, as filtered.replace(clearScreenPattern, repl)
does (src/main.ts lines 645 and 649). -/
def replaceClearTriples (repl : List Char) : List Char → List Char
  | '\x1b' :: '[' :: '2' :: 'J' :: '\x1b' :: '[' :: '3' :: 'J' :: '\x1b' :: '[' :: 'H' :: rest =>
      repl ++ replaceClearTriples repl rest
  | c :: rest => c :: replaceClearTriples repl rest
  | [] => []

/-- Try to match the colour-styling regex ESC[[0-9;]*m at the head of the
run after ESC[ was consumed; returns the remainder after the match. -/
def matchColorRun : List Char → Option (List Char)
  | [] => none
  | c :: rest =>
    if c.isDigit || c == ';' then matchColorRun rest
    else if c == 'm' then some rest
    else none

/-- Try to match the full colour-styling regex ESC[[0-9;]*m at the head
of the list (the first replace of src/main.ts line 654). -/
def matchColorAt : List Char → Option (List Char)
  | '\x1b' :: '[' :: rest => matchColorRun rest
  | _ => none

/-- Fuelled scanner deleting every occurrence of the colour-styling
regex; fuel at least the length of the list always suffices because
every step consumes at least one character. -/
def stripColorGo : Nat → List Char → List Char
  | 0, l => l
  | _ + 1, [] => []
  | fuel + 1, c :: rest =>
    match matchColorAt (c :: rest) with
    | some rest2 => stripColorGo fuel rest2
    | none => c :: stripColorGo fuel rest

/-- Delete every occurrence of ESC[[0-9;]*m, as the first replace of
src/main.ts line 654 does. -/
def stripColorCodes (l : List Char) : List Char := stripColorGo l.length l

/-- Try to match the cursor-movement regex ESC[[0-9;]*[A-Za-z] run after
ESC[ was consumed; returns the remainder after the match. -/
def matchCursorRun : List Char → Option (List Char)
  | [] => none
  | c :: rest =>
    if c.isDigit || c == ';' then matchCursorRun rest
    else if c.isAlpha then some rest
    else none

/-- Try to match the full cursor-movement regex at the head of the list
(the second replace of src/main.ts line 654). -/
def matchCursorAt : List Char → Option (List Char)
  | '\x1b' :: '[' :: rest => matchCursorRun rest
  | _ => none

/-- Fuelled scanner deleting every occurrence of the cursor-movement
regex. -/
def stripCursorGo : Nat → List Char → List Char
  | 0, l => l
  | _ + 1, [] => []
  | fuel + 1, c :: rest =>
    match matchCursorAt (c :: rest) with
    | some rest2 => stripCursorGo fuel rest2
    | none => c :: stripCursorGo fuel rest

/-- Delete every occurrence of ESC[[0-9;]*[A-Za-z], as the second
replace of src/main.ts line 654 does. -/
def stripCursorCodes (l : List Char) : List Char := stripCursorGo l.length l

/-- Line-ending normalization: rewrite every line feed whose original
predecessor is not a carriage return into carriage return + line feed,
as filtered.replace of src/main.ts line 661 does with its lookbehind.
The prev argument carries the preceding character of the original
string, matching the lookbehind on the unmodified input. -/
def normLF (prev : Option Char) : List Char → List Char
  | [] => []
  | c :: rest =>
    if c == '\n' && prev != some '\r' then
      '\r' :: '\n' :: normLF (some '\n') rest
    else
      c :: normLF (some c) rest

/-- True when the list contains a line feed whose predecessor (prev for
the head position) is not a carriage return. -/
def hasBareLF (prev : Option Char) : List Char → Bool
  | [] => false
  | c :: rest => (c == '\n' && prev != some '\r') || hasBareLF (some c) rest

/-- Rolling filter state of the view: the fields lastClaudeOutput and
clearScreenCount of src/main.ts lines 629-630. -/
structure FilterState where
  lastClaudeOutput : List Char
  clearScreenCount : Nat
deriving DecidableEq

/-- Embedding of filterClaudeOutput (src/main.ts lines 632-664): count
the clear-screen triples, while the rolling counter is at most 2 rewrite
them to the normalized pair and otherwise delete them, reset the counter
when the ANSI-stripped content is new and longer than 50 characters, and
finally normalize line endings.  Returns the updated state and the
string written to the terminal. -/
def filterClaudeOutput (st : FilterState) (output : List Char) :
    FilterState × List Char :=
  let nMatches := countClearTriples output
  let afterClear : Nat × List Char :=
    if 0 < nMatches then
      let newCount := st.clearScreenCount + nMatches
      if 2 < newCount then (newCount, replaceClearTriples [] output)
      else (newCount, replaceClearTriples normalizedClear output)
    else (st.clearScreenCount, output)
  let count1 := afterClear.1
  let filtered := afterClear.2
  let contentWithoutAnsi := stripCursorCodes (stripColorCodes filtered)
  let st2 : FilterState :=
    if contentWithoutAnsi ≠ st.lastClaudeOutput ∧ 50 < contentWithoutAnsi.length then
      { lastClaudeOutput := contentWithoutAnsi, clearScreenCount := 0 }
    else
      { lastClaudeOutput := st.lastClaudeOutput, clearScreenCount := count1 }
  (st2, normLF none filtered)

/-! ## Generic external-command session output (src/main.ts, executeCommand) -/

/-- Per-spawn flag outputReceived of executeCommand (src/main.ts line 573). -/
structure GenericSessionState where
  outputReceived : Bool
deriving DecidableEq

/-- Embedding of the stdout data handler that executeCommand installs on
generic external commands (src/main.ts lines 582-587): it sets
outputReceived and writes the chunk to the terminal unchanged; no output
filter runs on this path. -/
def genericStdoutData (_s : GenericSessionState) (chunk : List Char) :
    GenericSessionState × List Char :=
  ({ outputReceived := true }, chunk)

/-! ## Line editor and fallback shell (src/main.ts, startBasicShell and handleInput) -/

/-- State of the fallback shell held by the view: currentCommand,
commandHistory, historyIndex, promptShown and processingInput
(src/main.ts lines 244-248) together with the terminal display content:
screen is the sequence of write calls since the last clear, and
scrolledToBottom records the last scroll call. -/
structure TermState where
  screen : List (List Char)
  scrolledToBottom : Bool
  currentCommand : List Char
  commandHistory : List (List Char)
  historyIndex : Int
  promptShown : Bool
  processingInput : Bool
deriving DecidableEq

/-- The editor state installed by startBasicShell (src/main.ts lines
195-198): empty buffer, empty history, history index -1, prompt not yet
shown, not processing input. -/
def initialTermState : TermState :=
  { screen := [], scrolledToBottom := false, currentCommand := [],
    commandHistory := [], historyIndex := -1, promptShown := false,
    processingInput := false }

/-- JavaScript whitespace test for String.prototype.trim, restricted to
the ASCII whitespace characters. -/
def isJsWhitespace (c : Char) : Bool :=
  c == ' ' || c == '\t' || c == '\n' || c == '\r' || c == '\x0b' || c == '\x0c'

/-- Embedding of JavaScript String.prototype.trim: drop whitespace from
both ends (used at src/main.ts lines 297-299). -/
def jsTrim (l : List Char) : List Char :=
  ((l.dropWhile isJsWhitespace).reverse.dropWhile isJsWhitespace).reverse

/-- Embedding of showPrompt (src/main.ts lines 250-278): clear the
in-progress command, write the prompt (prefixed by a newline when a
prompt was shown before), mark the prompt as shown and scroll to the
bottom.  The prompt text (username, hostname and working directory) is a
parameter. -/
def showPrompt (prompt : List Char) (s : TermState) : TermState :=
  let s1 := { s with currentCommand := ([] : List Char) }
  if s1.promptShown then
    { s1 with screen := s1.screen ++ ['\r' :: '\n' :: prompt],
              scrolledToBottom := true }
  else
    { s1 with screen := s1.screen ++ [prompt], promptShown := true,
              scrolledToBottom := true }

/-- Classification of one onData token by the if-chain of handleInput
(src/main.ts lines 294-361). -/
inductive InputToken where
  | enter
  | backspace
  | ctrlC
  | up
  | down
  | printable
  | other
deriving DecidableEq

/-- The if-chain of handleInput in source order: carriage return,
DEL or BS, ETX, the two arrow escape sequences, then a token whose
first character code is in [32, 127) counts as printable and everything
else is ignored (src/main.ts lines 294-361). -/
def decodeInput (data : List Char) : InputToken :=
  if data = ['\r'] then .enter
  else if data = ['\x7f'] ∨ data = ['\x08'] then .backspace
  else if data = ['\x03'] then .ctrlC
  else if data = ['\x1b', '[', 'A'] then .up
  else if data = ['\x1b', '[', 'B'] then .down
  else
    match data with
    | c :: _ => if 32 ≤ c.toNat ∧ c.toNat < 127 then .printable else .other
    | [] => .other

/-- Embedding of replaceCurrentCommand (src/main.ts lines 364-374):
erase the old buffer with destructive backspaces, then write and store
the new command. -/
def replaceCurrentCommand (s : TermState) (newCommand : List Char) : TermState :=
  { s with
    screen := s.screen ++ List.replicate s.currentCommand.length ['\x08', ' ', '\x08']
              ++ [newCommand],
    currentCommand := newCommand }

/-- Embedding of handleInput (src/main.ts lines 280-362).  Input is
ignored when a process session is active (ptyActive) or re-entrant
processing is detected.  Enter trims the buffer and, when non-empty,
appends it to the history, points the history index past the end, clears
the buffer and signals the finished command (the Option result; the
source then calls executeCommand with it); an empty trimmed buffer just
shows the prompt.  Backspace drops the last buffer character with a
destructive echo, Ctrl+C on a non-empty buffer echoes and clears it, the
arrows move the history cursor and replace the buffer, printable-first
tokens are appended whole and echoed, and everything else is ignored.
The Ctrl+C branch of the source that would kill a process is dead there
because an active process already returned at the top, so it does not
appear. -/
def handleInput (prompt : List Char) (ptyActive : Bool) (s : TermState)
    (data : List Char) : TermState × Option (List Char) :=
  if ptyActive then (s, none)
  else if s.processingInput then (s, none)
  else
    match decodeInput data with
    | .enter =>
      let s1 := { s with screen := s.screen ++ [['\r', '\n']] }
      if jsTrim s1.currentCommand ≠ [] then
        let clean := jsTrim s1.currentCommand
        let hist := s1.commandHistory ++ [clean]
        ({ s1 with commandHistory := hist,
                   historyIndex := (hist.length : Int),
                   currentCommand := [],
                   processingInput := false }, some clean)
      else (showPrompt prompt s1, none)
    | .backspace =>
      if 0 < s.currentCommand.length then
        ({ s with currentCommand := s.currentCommand.dropLast,
                  screen := s.screen ++ [['\x08', ' ', '\x08']] }, none)
      else (s, none)
    | .ctrlC =>
      if 0 < s.currentCommand.length then
        (showPrompt prompt
          { s with screen := s.screen ++ [['^', 'C', '\r', '\n']],
                   currentCommand := [] }, none)
      else (s, none)
    | .up =>
      if 0 < s.historyIndex then
        let i := s.historyIndex - 1
        (replaceCurrentCommand { s with historyIndex := i }
          (s.commandHistory.getD i.toNat []), none)
      else (s, none)
    | .down =>
      if s.historyIndex < (s.commandHistory.length : Int) - 1 then
        let i := s.historyIndex + 1
        (replaceCurrentCommand { s with historyIndex := i }
          (s.commandHistory.getD i.toNat []), none)
      else if s.historyIndex = (s.commandHistory.length : Int) - 1 then
        (replaceCurrentCommand { s with historyIndex := s.historyIndex + 1 } [],
         none)
      else (s, none)
    | .printable =>
      ({ s with currentCommand := s.currentCommand ++ data,
                screen := s.screen ++ [data] }, none)
    | .other => (s, none)

/-- Fold handleInput over a sequence of onData tokens with no active
process session, keeping the state. -/
def processEvents (prompt : List Char) (s : TermState)
    (evs : List (List Char)) : TermState :=
  evs.foldl (fun st e => (handleInput prompt false st e).1) s

/-- The buffer transition claimed by the specification for one keystroke
event: a single printable character (code 32-126) is appended, a single
DEL or BS removes the last buffer character, and any other event leaves
the buffer unchanged. -/
def specStep (b : List Char) (e : List Char) : List Char :=
  match e with
  | [c] =>
    if 32 ≤ c.toNat ∧ c.toNat ≤ 126 then b ++ [c]
    else if c = '\x7f' ∨ c = '\x08' then b.dropLast
    else b
  | _ => b

/-- The keystroke events covered by the amended buffer-fold claim: any
single character other than carriage return and Ctrl+C, and any
multi-character token that is neither arrow sequence and whose first
character is not printable.  Excluded are exactly the events that
submit, interrupt or history-replace the buffer, and multi-character
tokens with a printable first character (those append the whole token,
see the C10 theorem). -/
def isC7Event (e : List Char) : Bool :=
  match e with
  | [] => true
  | [c] => !(c == '\r') && !(c == '\x03')
  | c :: d :: rest =>
    !((c :: d :: rest) == ['\x1b', '[', 'A']) &&
    !((c :: d :: rest) == ['\x1b', '[', 'B']) &&
    (c.toNat < 32 || 127 ≤ c.toNat)

/-! ## Command dispatcher (src/main.ts, executeCommand and handleClaudeCommand) -/

/-- Observable outcome of one dispatch of executeCommand: which
executables were probed for availability (in order), the informational
lines written, whether a child process was spawned on this path, and
whether showPrompt ran synchronously on this path. -/
structure ExecResult where
  probed : List String
  writes : List String
  spawned : Bool
  promptShown : Bool
deriving DecidableEq

/-- Embedding of handleClaudeCommand (src/main.ts lines 693-929): probe
the claude executable first; when the probe fails, write the
command-not-found lines and show the prompt without spawning.  When the
probe succeeds the source walks a strategy cascade (expect, stdbuf,
unbuffer, python3 pty, direct) and spawns the chosen command; that
branch is modelled only as: the banner is written and a process is
spawned, since no claim refers to the strategy choice or to the
follow-up timeouts. -/
def handleClaudeCommand (probe : String → Bool) (_args : List String) :
    ExecResult :=
  if probe ("claude") = false then
    { probed := ["claude"],
      writes := ["claude: command not found\r\n",
                 "Please install Claude Code CLI first. Visit: https://claude.ai/code\r\n"],
      spawned := false, promptShown := true }
  else
    { probed := ["claude"],
      writes := ["Starting Claude Code...\r\n"],
      spawned := true, promptShown := false }

/-- Embedding of the dispatch order of executeCommand (src/main.ts lines
376-610): the built-ins clear and cd run synchronously without spawning
and re-show the prompt (the display effect of clear is embedded
separately as executeClear; the cd error line is not modelled as no
claim refers to it); claude goes to handleClaudeCommand; the
diagnostics check-claude and claude-simple probe the claude executable
and either report and re-prompt or spawn their test process; every other
command name is probed first (line 539) and, when unavailable, gets the
command-not-found line and a fresh prompt with no spawn, otherwise it is
spawned.  The probe oracle stands for testCommandAvailable (lines
667-691), whose one-second timeout resolves to false. -/
def executeCommand (probe : String → Bool) (cmd : String)
    (args : List String) : ExecResult :=
  if cmd = "clear" then
    { probed := [], writes := [], spawned := false, promptShown := true }
  else if cmd = "cd" then
    { probed := [], writes := [], spawned := false, promptShown := true }
  else if cmd = "claude" then
    handleClaudeCommand probe args
  else if cmd = "check-claude" then
    if probe ("claude") = false then
      { probed := ["claude"],
        writes := ["Checking Claude Code CLI installation...\r\n",
                   "✗ Claude Code CLI not found in PATH\r\n",
                   "Please install it from: https://claude.ai/code\r\n"],
        spawned := false, promptShown := true }
    else
      { probed := ["claude"],
        writes := ["Checking Claude Code CLI installation...\r\n",
                   "✓ Claude Code CLI found in PATH\r\n",
                   "Testing direct claude execution...\r\n"],
        spawned := true, promptShown := true }
  else if cmd = "claude-simple" then
    if probe ("claude") = false then
      { probed := ["claude"],
        writes := ["Testing Claude with simple execution...\r\n",
                   "✗ Claude CLI not found\r\n"],
        spawned := false, promptShown := true }
    else
      { probed := ["claude"],
        writes := ["Testing Claude with simple execution...\r\n"],
        spawned := true, promptShown := false }
  else
    if probe cmd = false then
      { probed := [cmd], writes := [cmd ++ ": command not found\r\n"],
        spawned := false, promptShown := true }
    else
      { probed := [cmd], writes := [], spawned := true, promptShown := false }

/-- Embedding of the clear built-in of executeCommand (src/main.ts lines
387-392) on the display state: terminal.clear() empties the screen,
scrollToTop leaves the viewport at the top, and showPrompt writes a
fresh prompt and scrolls to the bottom (equal to the top on the now
empty scrollback). -/
def executeClear (prompt : List Char) (s : TermState) : TermState :=
  showPrompt prompt { s with screen := [], scrolledToBottom := false }

/-! ## Input-handler binding of the terminal display (C1) -/

/-- The distinct input handlers the source binds to the display:
the line-editor handler from startBasicShell (line 231) and restart
(line 1068 binds a no-op first, then startPty rebinds), the claude
session handler (line 862), the claude-simple handler (line 511), the
interactive-tool handler (line 989), and the node-pty forwarder
(line 169). -/
inductive HandlerTag where
  | lineEditor
  | claudeSession
  | claudeSimple
  | interactiveTool
  | noop
  | ptyForward
deriving DecidableEq

/-- The terminal display reduced to its input-event binding. -/
structure Display where
  handlers : List HandlerTag

/-- Modelled from the spec: the terminal display (the xterm widget) is
an external collaborator whose code is not part of the repository; the
external-interface section of the specification describes onData as
"raw keystrokes, single active subscription", so binding a handler
replaces the previous subscription rather than adding to it.  The
comment at src/main.ts line 1068 relies on exactly this reading. -/
def onData (_d : Display) (h : HandlerTag) : Display :=
  { handlers := [h] }

/-- The session transitions of the view that rebind the input handler,
traced from the source: starting a claude session binds the claude
handler (line 862); starting claude-simple binds its handler (line 511);
starting an interactive tool binds the interactive handler (line 989);
a session ending by exit, error or close rebinds the line editor (lines
514, 521, 867, 875, 1005, 1022, 1032); restartTerminal binds a no-op
(line 1068) and then startPty binds either the node-pty forwarder (line
169) or, in the fallback, the line editor again (line 231). -/
inductive SessionOp where
  | startClaude
  | startSimple
  | startInteractive
  | endSession
  | restart (ptyAvailable : Bool)

/-- Apply one session transition to the display binding. -/
def applyOp (d : Display) : SessionOp → Display
  | .startClaude => onData d .claudeSession
  | .startSimple => onData d .claudeSimple
  | .startInteractive => onData d .interactiveTool
  | .endSession => onData d .lineEditor
  | .restart ptyAvailable =>
    onData (onData d .noop) (if ptyAvailable then .ptyForward else .lineEditor)

/-- The display binding after startBasicShell first runs (src/main.ts
line 231): exactly the line-editor handler. -/
def initialDisplay : Display := onData { handlers := [] } .lineEditor

/-! ## Session input handlers and kill escalation (C6) -/

/-- Action a terminal input handler can perform on behalf of a running
session: write to the display, write to the child stdin, send a signal,
close stdin, or arm a timer that sends further actions only if the
process is still alive when it fires. -/
inductive IAction where
  | termWrite (s : String)
  | stdinWrite (s : String)
  | killSignal (sig : String)
  | stdinEnd
  | delayedIfAlive (delayMs : Nat) (rest : List IAction)

/-- Embedding of interactiveInputHandler (src/main.ts lines 947-986),
installed for python, node, mongo and psql sessions.  On Ctrl+C with
output already received the raw byte is forwarded to stdin; with no
output yet the handler echoes, sends SIGINT and arms the escalation
SIGTERM after one second and SIGKILL two seconds later, each only if the
process is still alive.  Ctrl+D closes stdin, carriage return is
forwarded as a line feed, and everything else is forwarded verbatim. -/
def interactiveInputHandler (procAlive : Bool) (interactiveMode : Bool)
    (hasReceivedOutput : Bool) (data : String) : List IAction :=
  if procAlive && interactiveMode then
    if data = "\x03" then
      if hasReceivedOutput then [.stdinWrite ("\x03")]
      else [.termWrite ("^C\r\n"), .killSignal ("SIGINT"),
            .delayedIfAlive 1000 [.killSignal ("SIGTERM"),
              .delayedIfAlive 2000 [.killSignal ("SIGKILL")]]]
    else if data = "\x04" then [.stdinEnd]
    else if data = "\r" then [.stdinWrite ("\n")]
    else [.stdinWrite data]
  else []

/-- Embedding of claudeInputHandler (src/main.ts lines 852-860),
installed for claude sessions: every token, Ctrl+C included, is
forwarded verbatim to the child stdin while the process is alive and the
session active; no signal is ever sent by this handler. -/
def claudeInputHandler (ptyAlive : Bool) (isActive : Bool)
    (data : String) : List IAction :=
  if ptyAlive && isActive then [.stdinWrite data] else []

/-! ## Second prototype: startClaudeCode (src/unnamed/part_000) -/

/-- The settings record of the second prototype (src/unnamed/part_000
lines 18-21); the panel position enum is kept as a string. -/
structure ClaudeCodeSettingsB where
  defaultCommand : String
  panelPosition : String
deriving DecidableEq

/-- Observable outcome of startClaudeCode: the lines written before
spawning, the spawned executable path and argument list and the shell
option, and the lines the close and error handlers would write. -/
structure StartClaudeCodeResult where
  initialWrites : List String
  spawnPath : String
  spawnArgs : List String
  shellOption : Bool
  onCloseWrites : Int → List String
  onErrorWrites : String → List String

/-- Embedding of startClaudeCode (src/unnamed/part_000 lines 178-241):
the banner names the configured default command, but the spawn always
runs /usr/local/bin/claude with an empty argument list and shell false;
the close handler reports the exit code, and the error handler reports
the error and a hint that again names the configured command. -/
def startClaudeCode (settings : ClaudeCodeSettingsB) : StartClaudeCodeResult :=
  let command := settings.defaultCommand
  { initialWrites := ["Starting " ++ command ++ "...\r\n"],
    spawnPath := "/usr/local/bin/claude",
    spawnArgs := [],
    shellOption := false,
    onCloseWrites := fun code =>
      ["\r\n\r\n✓ Process exited with code " ++ toString code ++ "\r\n",
       "Click the terminal icon to restart.\r\n"],
    onErrorWrites := fun errMessage =>
      ["\r\n✗ Error: " ++ errMessage ++ "\r\n",
       "Make sure '" ++ command ++ "' is installed and accessible in your PATH.\r\n"] }

/-! ## Helper lemmas -/

theorem hasBareLF_normLF (p : Option Char) (l : List Char) :
    hasBareLF p (normLF p l) = false := by
  induction l generalizing p with
  | nil => rfl
  | cons c rest ih =>
    by_cases h : (c == '\n' && p != some '\r') = true
    · simp only [normLF, h, if_true, hasBareLF]
      have h1 : (('\r' : Char) == '\n') = false := by decide
      have h2 : (('\n' : Char) == '\n' && (some '\r' != some '\r')) = false := by decide
      simp [h1, h2, ih]
    · simp only [normLF, h, if_false, Bool.false_eq_true, hasBareLF]
      simp only [Bool.not_eq_true] at h
      simp [h, ih]

theorem decodeInput_printable (c : Char) (cs : List Char)
    (h1 : 32 ≤ c.toNat) (h2 : c.toNat < 127) :
    decodeInput (c :: cs) = .printable := by
  unfold decodeInput
  rw [if_neg, if_neg, if_neg, if_neg, if_neg]
  · exact if_pos ⟨h1, h2⟩
  · intro h; rw [show c = '\x1b' by exact (List.cons.injEq _ _ _ _ ▸ h).1] at h1
    exact absurd h1 (by decide)
  · intro h; rw [show c = '\x1b' by exact (List.cons.injEq _ _ _ _ ▸ h).1] at h1
    exact absurd h1 (by decide)
  · intro h; rw [show c = '\x03' by exact (List.cons.injEq _ _ _ _ ▸ h).1] at h1
    exact absurd h1 (by decide)
  · rintro (h | h)
    · rw [show c = '\x7f' by exact (List.cons.injEq _ _ _ _ ▸ h).1] at h2
      exact absurd h2 (by decide)
    · rw [show c = '\x08' by exact (List.cons.injEq _ _ _ _ ▸ h).1] at h1
      exact absurd h1 (by decide)
  · intro h; rw [show c = '\r' by exact (List.cons.injEq _ _ _ _ ▸ h).1] at h1
    exact absurd h1 (by decide)

theorem decodeInput_other_single (c : Char)
    (hr : c ≠ '\r') (h3 : c ≠ '\x03') (h7 : c ≠ '\x7f') (h8 : c ≠ '\x08')
    (hp : c.toNat < 32 ∨ 127 ≤ c.toNat) :
    decodeInput [c] = .other := by
  unfold decodeInput
  rw [if_neg, if_neg, if_neg, if_neg, if_neg]
  · rcases hp with hp | hp
    · exact if_neg (by omega)
    · exact if_neg (by omega)
  · intro h; exact absurd ((List.cons.injEq _ _ _ _ ▸ h).2) (by simp)
  · intro h; exact absurd ((List.cons.injEq _ _ _ _ ▸ h).2) (by simp)
  · intro h; exact h3 ((List.cons.injEq _ _ _ _ ▸ h).1)
  · rintro (h | h)
    · exact h7 ((List.cons.injEq _ _ _ _ ▸ h).1)
    · exact h8 ((List.cons.injEq _ _ _ _ ▸ h).1)
  · intro h; exact hr ((List.cons.injEq _ _ _ _ ▸ h).1)

theorem decodeInput_other_multi (c d : Char) (rest : List Char)
    (hA : c :: d :: rest ≠ ['\x1b', '[', 'A'])
    (hB : c :: d :: rest ≠ ['\x1b', '[', 'B'])
    (hp : c.toNat < 32 ∨ 127 ≤ c.toNat) :
    decodeInput (c :: d :: rest) = .other := by
  unfold decodeInput
  rw [if_neg, if_neg, if_neg, if_neg hA, if_neg hB]
  · rcases hp with hp | hp
    · exact if_neg (by omega)
    · exact if_neg (by omega)
  · intro h; exact absurd ((List.cons.injEq _ _ _ _ ▸ h).2) (by simp)
  · rintro (h | h)
    · exact absurd ((List.cons.injEq _ _ _ _ ▸ h).2) (by simp)
    · exact absurd ((List.cons.injEq _ _ _ _ ▸ h).2) (by simp)
  · intro h; exact absurd ((List.cons.injEq _ _ _ _ ▸ h).2) (by simp)

/-! ## Claim C2: output-filter suppression and reset -/

/-- C2 counterexample: the claim says that after the counter has
exceeded the threshold, an occurrence of the clear-screen triple
preceded by at least 50 characters of genuinely new ANSI-stripped
content resets the counter and passes through again.  With the counter
at 3 and exactly 50 characters of new content (which is at least 50),
the code does not reset the counter, because src/main.ts line 655
requires strictly more than 50 characters, and the next triple is
stripped instead of passing through. -/
theorem claim_C2_counterexample :
    (filterClaudeOutput { lastClaudeOutput := [], clearScreenCount := 3 }
      (List.replicate 50 'a')).1.clearScreenCount = 3 ∧
    (filterClaudeOutput
      (filterClaudeOutput { lastClaudeOutput := [], clearScreenCount := 3 }
        (List.replicate 50 'a')).1 clearTriple).2 = [] ∧
    (filterClaudeOutput
      (filterClaudeOutput { lastClaudeOutput := [], clearScreenCount := 3 }
        (List.replicate 50 'a')).1 clearTriple).2 ≠ normalizedClear := by
  refine ⟨by decide, by decide, by decide⟩

/-- C2 (amended): with the per-session rolling counter starting at zero,
three chunks each consisting of the clear-screen triple are filtered so
that the first two pass through as the normalized clear-and-home pair
and the third is stripped entirely; after the counter has exceeded the
threshold, a chunk of strictly more than 50 characters of genuinely new
ANSI-stripped content (here 51) resets the counter to zero, and a
subsequent triple passes through as the normalized pair again. -/
theorem claim_C2_output_filter_suppression :
    (filterClaudeOutput { lastClaudeOutput := [], clearScreenCount := 0 }
      clearTriple).2 = normalizedClear ∧
    (filterClaudeOutput { lastClaudeOutput := [], clearScreenCount := 0 }
      clearTriple).1.clearScreenCount = 1 ∧
    (filterClaudeOutput { lastClaudeOutput := [], clearScreenCount := 1 }
      clearTriple).2 = normalizedClear ∧
    (filterClaudeOutput { lastClaudeOutput := [], clearScreenCount := 1 }
      clearTriple).1.clearScreenCount = 2 ∧
    (filterClaudeOutput { lastClaudeOutput := [], clearScreenCount := 2 }
      clearTriple).2 = [] ∧
    (filterClaudeOutput { lastClaudeOutput := [], clearScreenCount := 2 }
      clearTriple).1.clearScreenCount = 3 ∧
    (filterClaudeOutput { lastClaudeOutput := [], clearScreenCount := 3 }
      (List.replicate 51 'a')).1.clearScreenCount = 0 ∧
    (filterClaudeOutput { lastClaudeOutput := [], clearScreenCount := 3 }
      (List.replicate 51 'a')).2 = List.replicate 51 'a' ∧
    (filterClaudeOutput
      { lastClaudeOutput := List.replicate 51 'a', clearScreenCount := 0 }
      clearTriple).2 = normalizedClear ∧
    (filterClaudeOutput
      { lastClaudeOutput := List.replicate 51 'a', clearScreenCount := 0 }
      clearTriple).1.clearScreenCount = 1 := by
  refine ⟨by decide, by decide, by decide, by decide, by decide,
          by decide, by decide, by decide, by decide, by decide⟩

/-! ## Claim C3: line-ending normalization -/

/-- C3 counterexample: the claim quantifies over every running session,
but the stdout handler installed by executeCommand for generic external
commands (src/main.ts lines 582-587) writes the chunk to the display
unchanged, so a process emitting hello-LF reaches the display as
hello-LF, not hello-CR-LF. -/
theorem claim_C3_counterexample :
    genericStdoutData { outputReceived := false }
      ['h', 'e', 'l', 'l', 'o', '\n']
      = ({ outputReceived := true }, ['h', 'e', 'l', 'l', 'o', '\n']) ∧
    (['h', 'e', 'l', 'l', 'o', '\n'] : List Char)
      ≠ ['h', 'e', 'l', 'l', 'o', '\r', '\n'] := by
  refine ⟨by decide, by decide⟩

/-- C3 (amended): for chunks that are routed through the output filter
(the claude sessions started by handleClaudeCommand), every line feed in
the written result is preceded by a carriage return, and in particular a
chunk hello-LF is written as hello-CR-LF.  Sessions spawned by the
generic executeCommand path write their chunks unfiltered. -/
theorem claim_C3_line_ending_normalization :
    (∀ (st : FilterState) (chunk : List Char),
      hasBareLF none (filterClaudeOutput st chunk).2 = false) ∧
    (filterClaudeOutput { lastClaudeOutput := [], clearScreenCount := 0 }
      ['h', 'e', 'l', 'l', 'o', '\n']).2
      = ['h', 'e', 'l', 'l', 'o', '\r', '\n'] := by
  constructor
  · intro st chunk
    show hasBareLF none (normLF none _) = false
    exact hasBareLF_normLF none _
  · decide

theorem decodeInput_up : decodeInput ['\x1b', '[', 'A'] = InputToken.up := by
  decide

theorem decodeInput_down : decodeInput ['\x1b', '[', 'B'] = InputToken.down := by
  decide

theorem arrowStep_bounds (p : List Char) (s : TermState) (e : List Char)
    (he : e = ['\x1b', '[', 'A'] ∨ e = ['\x1b', '[', 'B'])
    (lo : Int) (hlo : lo ≤ 0)
    (h1 : lo ≤ s.historyIndex)
    (h2 : s.historyIndex ≤ (s.commandHistory.length : Int)) :
    lo ≤ (handleInput p false s e).1.historyIndex ∧
    (handleInput p false s e).1.historyIndex
      ≤ ((handleInput p false s e).1.commandHistory.length : Int) := by
  by_cases hp : s.processingInput = true
  · rcases he with rfl | rfl <;>
      simp only [handleInput, hp, Bool.false_eq_true, if_false, if_true] <;>
      exact ⟨h1, h2⟩
  · rw [Bool.not_eq_true] at hp
    rcases he with rfl | rfl
    · simp only [handleInput, hp, Bool.false_eq_true, if_false, decodeInput_up]
      split_ifs with hi
      · simp only [replaceCurrentCommand]
        constructor <;> omega
      · exact ⟨h1, h2⟩
    · simp only [handleInput, hp, Bool.false_eq_true, if_false, decodeInput_down]
      split_ifs with hi hieq
      · simp only [replaceCurrentCommand]
        constructor <;> omega
      · simp only [replaceCurrentCommand]
        constructor <;> omega
      · exact ⟨h1, h2⟩

theorem processEvents_arrow_bounds (p : List Char) (evs : List (List Char))
    (hevs : ∀ e ∈ evs, e = ['\x1b', '[', 'A'] ∨ e = ['\x1b', '[', 'B'])
    (lo : Int) (hlo : lo ≤ 0) :
    ∀ s : TermState, lo ≤ s.historyIndex →
      s.historyIndex ≤ (s.commandHistory.length : Int) →
      lo ≤ (processEvents p s evs).historyIndex ∧
      (processEvents p s evs).historyIndex
        ≤ ((processEvents p s evs).commandHistory.length : Int) := by
  induction evs with
  | nil => intro s h1 h2; exact ⟨h1, h2⟩
  | cons e rest ih =>
    intro s h1 h2
    have he := hevs e (List.mem_cons_self _ _)
    have hstep := arrowStep_bounds p s e he lo hlo h1 h2
    exact ih (fun x hx => hevs x (List.mem_cons_of_mem _ hx)) _ hstep.1 hstep.2

/-! ## Claim C4: history-cursor bounds -/

/-- C4 counterexample: the editor state installed by startBasicShell has
history index -1 (src/main.ts line 198), and an up-arrow event leaves it
at -1 because the guard at line 338 requires a positive index; so there
is a reachable state, after a sequence of arrow events, in which the
claimed lower bound 0 fails. -/
theorem claim_C4_counterexample :
    (processEvents [] initialTermState [['\x1b', '[', 'A']]).historyIndex = -1 ∧
    ¬ (0 ≤ (processEvents [] initialTermState
              [['\x1b', '[', 'A']]).historyIndex) := by
  refine ⟨by decide, by decide⟩

/-- C4 (amended): arrow events preserve the bounds on the history
cursor: from any editor state with 0 ≤ historyIndex ≤ length of the
history, every sequence of up and down arrow events keeps
0 ≤ historyIndex ≤ length (such states are the ones reached after at
least one command submission, which sets the index to the length); from
the freshly initialized state the index is -1, so the invariant that
actually holds in every reachable state is -1 ≤ historyIndex ≤ length. -/
theorem claim_C4_history_cursor_invariant :
    ∀ (p : List Char) (s : TermState) (evs : List (List Char)),
      (∀ e ∈ evs, e = ['\x1b', '[', 'A'] ∨ e = ['\x1b', '[', 'B']) →
      ((0 ≤ s.historyIndex ∧ s.historyIndex ≤ (s.commandHistory.length : Int)) →
        0 ≤ (processEvents p s evs).historyIndex ∧
        (processEvents p s evs).historyIndex
          ≤ ((processEvents p s evs).commandHistory.length : Int)) ∧
      ((-1 ≤ s.historyIndex ∧ s.historyIndex ≤ (s.commandHistory.length : Int)) →
        -1 ≤ (processEvents p s evs).historyIndex ∧
        (processEvents p s evs).historyIndex
          ≤ ((processEvents p s evs).commandHistory.length : Int)) := by
  intro p s evs hevs
  constructor
  · rintro ⟨h1, h2⟩
    exact processEvents_arrow_bounds p evs hevs 0 le_rfl s h1 h2
  · rintro ⟨h1, h2⟩
    exact processEvents_arrow_bounds p evs hevs (-1) (by norm_num) s h1 h2

/-- Witness for the amended C4 theorem at a concrete state with one
history entry and the cursor at 0, processing an up then a down arrow. -/
theorem claim_C4_witness :
    (∀ e ∈ [['\x1b', '[', 'A'], ['\x1b', '[', 'B']],
       e = ['\x1b', '[', 'A'] ∨ e = ['\x1b', '[', 'B']) ∧
    (0 ≤ ({ initialTermState with historyIndex := 0, commandHistory := [['l', 's']] } : TermState).historyIndex ∧
     ({ initialTermState with historyIndex := 0, commandHistory := [['l', 's']] } : TermState).historyIndex
       ≤ (({ initialTermState with historyIndex := 0, commandHistory := [['l', 's']] } : TermState).commandHistory.length : Int)) ∧
    (0 ≤ (processEvents [] { initialTermState with historyIndex := 0, commandHistory := [['l', 's']] } [['\x1b', '[', 'A'], ['\x1b', '[', 'B']]).historyIndex ∧
     (processEvents [] { initialTermState with historyIndex := 0, commandHistory := [['l', 's']] } [['\x1b', '[', 'A'], ['\x1b', '[', 'B']]).historyIndex
       ≤ ((processEvents [] { initialTermState with historyIndex := 0, commandHistory := [['l', 's']] } [['\x1b', '[', 'A'], ['\x1b', '[', 'B']]).commandHistory.length : Int)) :=
  ⟨by decide, by decide,
   (claim_C4_history_cursor_invariant []
      { initialTermState with historyIndex := 0, commandHistory := [['l', 's']] }
      [['\x1b', '[', 'A'], ['\x1b', '[', 'B']] (by decide)).1 (by decide)⟩

/-! ## Claim C1: single input-handler binding -/

/-- C1: under the single-active-subscription semantics of the display
input event, every session transition of the view (starting a claude,
claude-simple or interactive session, a session ending, or a restart)
rebinds the handler through onData, so after any sequence of such
transitions from a state with one bound handler exactly one handler is
bound, and a keystroke is never delivered to two handlers. -/
theorem claim_C1_single_input_handler :
    ∀ (ops : List SessionOp) (d : Display), d.handlers.length = 1 →
      ((ops.foldl applyOp d).handlers).length = 1 := by
  intro ops
  induction ops with
  | nil => intro d h; exact h
  | cons op rest ih =>
    intro d _
    have h1 : (applyOp d op).handlers.length = 1 := by
      cases op <;> rfl
    exact ih (applyOp d op) h1

/-- Witness for C1: starting from the display state left by
startBasicShell, a claude session start and end, a restart into the
fallback shell, and an interactive session start and end leave exactly
one bound handler. -/
theorem claim_C1_witness :
    initialDisplay.handlers.length = 1 ∧
    (([SessionOp.startClaude, SessionOp.endSession, SessionOp.restart false,
       SessionOp.startInteractive, SessionOp.endSession].foldl applyOp
       initialDisplay).handlers).length = 1 :=
  ⟨rfl, claim_C1_single_input_handler _ initialDisplay rfl⟩

/-! ## Claim C5: unavailable external commands never spawn -/

/-- C5: for every dispatched command name outside the built-ins clear
and cd and the diagnostics check-claude and claude-simple (that is, the
claude launch and every generic external command, including the
recognized interactive tools), the dispatcher probes the name first, and
when the probe resolves false (which includes its one-second timeout)
the display shows the command-not-found line, the prompt is re-shown and
no process is spawned. -/
theorem claim_C5_unavailable_command_not_spawned :
    ∀ (probe : String → Bool) (cmd : String) (args : List String),
      cmd ≠ "clear" → cmd ≠ "cd" → cmd ≠ "check-claude" →
      cmd ≠ "claude-simple" → probe cmd = false →
      (executeCommand probe cmd args).probed = [cmd] ∧
      (cmd ++ ": command not found\r\n") ∈ (executeCommand probe cmd args).writes ∧
      (executeCommand probe cmd args).promptShown = true ∧
      (executeCommand probe cmd args).spawned = false := by
  intro probe cmd args h1 h2 h3 h4 hprobe
  by_cases hc : cmd = "claude"
  · subst hc
    simp [executeCommand, handleClaudeCommand, hprobe]
  · simp [executeCommand, h1, h2, h3, h4, hc, hprobe]

/-- Witness for C5: a command named nonexistentcmd under a probe oracle
that finds nothing gets the not-found line, a fresh prompt, and no
spawn. -/
theorem claim_C5_witness :
    (("nonexistentcmd" : String) ≠ "clear" ∧
     ("nonexistentcmd" : String) ≠ "cd" ∧
     ("nonexistentcmd" : String) ≠ "check-claude" ∧
     ("nonexistentcmd" : String) ≠ "claude-simple" ∧
     (fun _ : String => false) "nonexistentcmd" = false) ∧
    ((executeCommand (fun _ => false) "nonexistentcmd" []).probed
       = ["nonexistentcmd"] ∧
     ("nonexistentcmd" ++ ": command not found\r\n")
       ∈ (executeCommand (fun _ => false) "nonexistentcmd" []).writes ∧
     (executeCommand (fun _ => false) "nonexistentcmd" []).promptShown = true ∧
     (executeCommand (fun _ => false) "nonexistentcmd" []).spawned = false) :=
  ⟨⟨by decide, by decide, by decide, by decide, rfl⟩,
   claim_C5_unavailable_command_not_spawned (fun _ => false) "nonexistentcmd" []
     (by decide) (by decide) (by decide) (by decide) rfl⟩

/-! ## Claim C6: Ctrl+C while running -/

/-- C6 counterexample: the claim quantifies over every running session,
but the input handler installed for claude sessions (claudeInputHandler,
src/main.ts lines 852-860) forwards Ctrl+C to the child stdin ignoring
whether output was observed, and never sends a signal; so a claude
session that has produced no output does not get the claimed escalating
kill sequence. -/
theorem claim_C6_counterexample :
    claudeInputHandler true true ("\x03") = [IAction.stdinWrite ("\x03")] ∧
    IAction.killSignal ("SIGINT") ∉ claudeInputHandler true true ("\x03") ∧
    IAction.killSignal ("SIGTERM") ∉ claudeInputHandler true true ("\x03") ∧
    IAction.killSignal ("SIGKILL") ∉ claudeInputHandler true true ("\x03") := by
  refine ⟨rfl, ?_, ?_, ?_⟩ <;>
    · show ¬ _ ∈ [IAction.stdinWrite ("\x03")]
      simp

/-- C6 (amended): for the interactive-tool sessions (python, node,
mongo, psql, handled by handleInteractiveCommand), Ctrl+C while running
is forwarded as the raw interrupt byte when output has been observed,
and otherwise triggers the escalating kill sequence: SIGINT at once,
SIGTERM after a one-second grace delay if still alive, SIGKILL two
seconds later if still alive, and no byte is written to stdin.  Claude
sessions instead forward Ctrl+C unconditionally. -/
theorem claim_C6_interactive_ctrl_c :
    interactiveInputHandler true true true ("\x03")
      = [IAction.stdinWrite ("\x03")] ∧
    IAction.killSignal ("SIGINT") ∈ interactiveInputHandler true true false ("\x03") ∧
    IAction.delayedIfAlive 1000 [IAction.killSignal ("SIGTERM"),
        IAction.delayedIfAlive 2000 [IAction.killSignal ("SIGKILL")]]
      ∈ interactiveInputHandler true true false ("\x03") ∧
    (∀ str : String,
      IAction.stdinWrite str ∉ interactiveInputHandler true true false ("\x03")) := by
  refine ⟨rfl, ?_, ?_, ?_⟩
  · show _ ∈ [IAction.termWrite ("^C\r\n"), IAction.killSignal ("SIGINT"),
        IAction.delayedIfAlive 1000 [IAction.killSignal ("SIGTERM"),
          IAction.delayedIfAlive 2000 [IAction.killSignal ("SIGKILL")]]]
    simp
  · show _ ∈ [IAction.termWrite ("^C\r\n"), IAction.killSignal ("SIGINT"),
        IAction.delayedIfAlive 1000 [IAction.killSignal ("SIGTERM"),
          IAction.delayedIfAlive 2000 [IAction.killSignal ("SIGKILL")]]]
    simp
  · intro str
    show ¬ _ ∈ [IAction.termWrite ("^C\r\n"), IAction.killSignal ("SIGINT"),
        IAction.delayedIfAlive 1000 [IAction.killSignal ("SIGTERM"),
          IAction.delayedIfAlive 2000 [IAction.killSignal ("SIGKILL")]]]
    simp

/-! ## Claim C8: clear is idempotent -/

/-- C8: running the clear built-in twice in a row from any state in
which a prompt has been shown produces exactly the display state of
running it once (empty scrollback holding just the fresh prompt write,
viewport settled, buffer cleared, prompt shown), and dispatching clear
never spawns a process. -/
theorem claim_C8_clear_idempotent :
    ∀ (prompt : List Char) (s : TermState) (probe : String → Bool)
      (args : List String),
      s.promptShown = true →
      executeClear prompt (executeClear prompt s) = executeClear prompt s ∧
      (executeCommand probe "clear" args).spawned = false ∧
      (executeCommand probe "clear" args).promptShown = true := by
  intro prompt s probe args h
  refine ⟨?_, rfl, rfl⟩
  simp [executeClear, showPrompt, h]

/-- Witness for C8 at a concrete prompted state. -/
theorem claim_C8_witness :
    ({ initialTermState with promptShown := true } : TermState).promptShown = true ∧
    (executeClear ['$'] (executeClear ['$'] { initialTermState with promptShown := true })
       = executeClear ['$'] { initialTermState with promptShown := true } ∧
     (executeCommand (fun _ => false) "clear" []).spawned = false ∧
     (executeCommand (fun _ => false) "clear" []).promptShown = true) :=
  ⟨rfl, claim_C8_clear_idempotent ['$']
     { initialTermState with promptShown := true } (fun _ => false) [] rfl⟩

/-! ## Claim C9: the second prototype ignores the setting when spawning -/

/-- C9 counterexample: the setting does not only influence the banner:
the error handler of startClaudeCode (src/unnamed/part_000 lines
218-227) also writes a hint naming the configured default command, so
two settings values produce different display text beyond the banner. -/
theorem claim_C9_counterexample :
    (startClaudeCode { defaultCommand := "a", panelPosition := "right" }).spawnPath
      = (startClaudeCode { defaultCommand := "b", panelPosition := "right" }).spawnPath ∧
    (startClaudeCode { defaultCommand := "a", panelPosition := "right" }).spawnArgs
      = (startClaudeCode { defaultCommand := "b", panelPosition := "right" }).spawnArgs ∧
    (startClaudeCode { defaultCommand := "a", panelPosition := "right" }).onErrorWrites ("boom")
      ≠ (startClaudeCode { defaultCommand := "b", panelPosition := "right" }).onErrorWrites ("boom") := by
  refine ⟨rfl, rfl, by decide⟩

/-- C9 (amended): the spawned process is independent of the
defaultCommand setting — for any two settings values startClaudeCode
spawns the fixed path /usr/local/bin/claude with an empty argument list
and shell disabled — and the setting influences only display text: the
starting banner (and, on a spawn error, the install hint), never the
spawn. -/
theorem claim_C9_spawn_independent_of_setting :
    ∀ s1 s2 : ClaudeCodeSettingsB,
      (startClaudeCode s1).spawnPath = "/usr/local/bin/claude" ∧
      (startClaudeCode s1).spawnArgs = [] ∧
      (startClaudeCode s1).shellOption = false ∧
      (startClaudeCode s1).spawnPath = (startClaudeCode s2).spawnPath ∧
      (startClaudeCode s1).spawnArgs = (startClaudeCode s2).spawnArgs ∧
      (startClaudeCode s1).initialWrites
        = ["Starting " ++ s1.defaultCommand ++ "...\r\n"] :=
  fun _ _ => ⟨rfl, rfl, rfl, rfl, rfl, rfl⟩

/-! ## Claim C10: classification by first character only -/

/-- C10: handleInput classifies a token by its first character only:
every token whose first character code is in [32, 126] (and which is
therefore none of the recognized special tokens, as those all start with
a control character) is appended to the command buffer whole — any
non-printable characters after the first included — and echoed to the
display as one write. -/
theorem claim_C10_printable_first_token :
    ∀ (p : List Char) (s : TermState) (c : Char) (cs : List Char),
      s.processingInput = false → 32 ≤ c.toNat → c.toNat ≤ 126 →
      (handleInput p false s (c :: cs)).1.currentCommand
        = s.currentCommand ++ (c :: cs) ∧
      (handleInput p false s (c :: cs)).1.screen = s.screen ++ [c :: cs] := by
  intro p s c cs hp h1 h2
  have hd := decodeInput_printable c cs h1 (by omega)
  simp [handleInput, hp, hd]

/-- Witness for C10: the token with printable first character a followed
by a control character and b is appended and echoed whole. -/
theorem claim_C10_witness :
    (initialTermState.processingInput = false ∧
     32 ≤ ('a' : Char).toNat ∧ ('a' : Char).toNat ≤ 126) ∧
    ((handleInput [] false initialTermState ('a' :: ['\x01', 'b'])).1.currentCommand
       = initialTermState.currentCommand ++ ('a' :: ['\x01', 'b']) ∧
     (handleInput [] false initialTermState ('a' :: ['\x01', 'b'])).1.screen
       = initialTermState.screen ++ [('a' :: ['\x01', 'b'])]) :=
  ⟨⟨rfl, by decide, by decide⟩,
   claim_C10_printable_first_token [] initialTermState 'a' ['\x01', 'b']
     rfl (by decide) (by decide)⟩

theorem c7_step (p : List Char) (s : TermState) (e : List Char)
    (hp : s.processingInput = false) (he : isC7Event e = true) :
    (handleInput p false s e).1.currentCommand = specStep s.currentCommand e ∧
    (handleInput p false s e).1.processingInput = false := by
  match e with
  | [] =>
    have hd : decodeInput [] = InputToken.other := by decide
    simp [handleInput, hp, hd, specStep]
  | [c] =>
    simp only [isC7Event, Bool.and_eq_true, Bool.not_eq_true',
      beq_eq_false_iff_ne] at he
    obtain ⟨hr, h3⟩ := he
    by_cases hb7 : c = '\x7f'
    · subst hb7
      have hd : decodeInput ['\x7f'] = InputToken.backspace := by decide
      simp only [handleInput, hp, Bool.false_eq_true, if_false, hd]
      by_cases hlen : 0 < s.currentCommand.length
      · rw [if_pos hlen]
        exact ⟨rfl, rfl⟩
      · rw [if_neg hlen]
        have h0 : s.currentCommand = [] := by
          cases h : s.currentCommand with
          | nil => rfl
          | cons a l => rw [h] at hlen; simp at hlen
        refine ⟨?_, hp⟩
        show s.currentCommand = specStep s.currentCommand ['\x7f']
        rw [h0]; rfl
    · by_cases hb8 : c = '\x08'
      · subst hb8
        have hd : decodeInput ['\x08'] = InputToken.backspace := by decide
        simp only [handleInput, hp, Bool.false_eq_true, if_false, hd]
        by_cases hlen : 0 < s.currentCommand.length
        · rw [if_pos hlen]
          exact ⟨rfl, rfl⟩
        · rw [if_neg hlen]
          have h0 : s.currentCommand = [] := by
            cases h : s.currentCommand with
            | nil => rfl
            | cons a l => rw [h] at hlen; simp at hlen
          refine ⟨?_, hp⟩
          show s.currentCommand = specStep s.currentCommand ['\x08']
          rw [h0]; rfl
      · by_cases hpr : 32 ≤ c.toNat ∧ c.toNat < 127
        · have hd := decodeInput_printable c [] hpr.1 hpr.2
          simp only [handleInput, hp, Bool.false_eq_true, if_false, hd]
          refine ⟨?_, trivial⟩
          show s.currentCommand ++ [c] = specStep s.currentCommand [c]
          simp only [specStep]
          rw [if_pos ⟨hpr.1, by omega⟩]
        · have hrange : c.toNat < 32 ∨ 127 ≤ c.toNat := by omega
          have hd := decodeInput_other_single c hr h3 hb7 hb8 hrange
          simp only [handleInput, hp, Bool.false_eq_true, if_false, hd]
          refine ⟨?_, trivial⟩
          show s.currentCommand = specStep s.currentCommand [c]
          simp only [specStep]
          rw [if_neg (by omega), if_neg (not_or.mpr ⟨hb7, hb8⟩)]
  | c :: d :: rest =>
    simp only [isC7Event, Bool.and_eq_true, Bool.not_eq_true',
      beq_eq_false_iff_ne, Bool.or_eq_true, decide_eq_true_eq] at he
    obtain ⟨⟨hA, hB⟩, hrange⟩ := he
    have hd := decodeInput_other_multi c d rest hA hB hrange
    simp only [handleInput, hp, Bool.false_eq_true, if_false, hd]
    exact ⟨rfl, trivial⟩

/-! ## Claim C7: buffer evolution under keystroke sequences -/

/-- C7 counterexample: the claim says every keystroke event other than a
printable character or a backspace leaves the buffer unchanged, but the
carriage-return event with a non-empty buffer submits the command and
clears the buffer (src/main.ts lines 294-310): from a buffer holding
l, s, processing one CR event empties the buffer instead of leaving it. -/
theorem claim_C7_counterexample :
    (handleInput [] false { initialTermState with currentCommand := ['l', 's'], promptShown := true } ['\r']).1.currentCommand = [] ∧
    [['\r']].foldl specStep (['l', 's'] : List Char) = ['l', 's'] ∧
    (([] : List Char) ≠ ['l', 's']) := by
  refine ⟨by decide, by decide, by decide⟩

/-- C7 (amended): for keystroke sequences processed with no active
session and made up of events that are single characters other than CR
and Ctrl+C, or multi-character control sequences other than the two
arrow sequences, the command buffer after processing is the fold of the
pure step of the claim over the events: each printable character (codes
32-126) appended, each DEL or BS removing the last character if any, and
every other event leaving the buffer unchanged, in event order.
Excluded events do change the buffer: CR submits and clears it, Ctrl+C
clears it, and the arrows replace it from the history. -/
theorem claim_C7_buffer_fold :
    ∀ (p : List Char) (s : TermState) (evs : List (List Char)),
      s.processingInput = false →
      (∀ e ∈ evs, isC7Event e = true) →
      (processEvents p s evs).currentCommand
        = evs.foldl specStep s.currentCommand := by
  intro p s evs
  induction evs generalizing s with
  | nil => intro _ _; rfl
  | cons e rest ih =>
    intro hp he
    have hstep := c7_step p s e hp (he e (List.mem_cons_self _ _))
    have htail := ih (s := (handleInput p false s e).1) hstep.2
      (fun x hx => he x (List.mem_cons_of_mem _ hx))
    calc (processEvents p s (e :: rest)).currentCommand
        = (processEvents p (handleInput p false s e).1 rest).currentCommand := rfl
      _ = rest.foldl specStep (handleInput p false s e).1.currentCommand := htail
      _ = rest.foldl specStep (specStep s.currentCommand e) := by rw [hstep.1]
      _ = (e :: rest).foldl specStep s.currentCommand := rfl

/-- Witness for the amended C7 theorem: from a fresh editor, appending
a, removing it with DEL, ignoring an unhandled escape sequence and a
lone control character, then appending b, leaves the buffer at b, as the
fold predicts. -/
theorem claim_C7_witness :
    (initialTermState.processingInput = false ∧
     (∀ e ∈ [['a'], ['\x7f'], ['\x1b', '[', 'C'], ['\x05'], ['b']],
        isC7Event e = true)) ∧
    (processEvents [] initialTermState
       [['a'], ['\x7f'], ['\x1b', '[', 'C'], ['\x05'], ['b']]).currentCommand
      = [['a'], ['\x7f'], ['\x1b', '[', 'C'], ['\x05'], ['b']].foldl specStep
          initialTermState.currentCommand :=
  ⟨⟨rfl, by decide⟩,
   claim_C7_buffer_fold [] initialTermState
     [['a'], ['\x7f'], ['\x1b', '[', 'C'], ['\x05'], ['b']] rfl (by decide)⟩
